import Mathlib

/-!
Shallow embedding of `src/feedback_ui_selfmod.py` (interactive-feedback-mcp).

The embedding models the command-execution / feedback-session core of the
program: the `FeedbackUI` session state (process handle, log buffer,
feedback result, command entry), the methods `_run_command`,
`_check_process_status`, `_append_log`, `_submit_feedback`, `clear_logs`,
the teardown tail of `run`, the process-tree killer `kill_tree` (over a
model of the psutil process table), the Windows environment-block parser
in `get_user_environment`, the settings-group key
`get_project_settings_group` (with a faithful MD5 and posix path
normalization), and the `feedback_ui` entry point's output-file handling.

GUI-only effects (widget text, styling, window geometry) are outside the
model; log lines are modelled at the `log_buffer` level, which is the data
the claims are about.
-/

namespace InteractiveFeedback

/-! ### Python string helpers -/

/-- Python `str.isspace` on the characters `str.strip()` removes
(ASCII whitespace as relevant to the feedback strings at issue). -/
def isPySpace (c : Char) : Bool :=
  c = ' ' || c = '\t' || c = '\n' || c = '\r' || c = '\x0b' || c = '\x0c'

/-- Python `str.strip()`: drop whitespace from both ends. -/
def pythonStrip (s : String) : String :=
  ⟨((s.data.dropWhile isPySpace).reverse.dropWhile isPySpace).reverse⟩

/-! ### FeedbackResult and session state

The source declares `class FeedbackResult(TypedDict): command_logs: str;
interactive_feedback: str`, but every constructor call in the program
(`_submit_feedback`, `run`) builds the dict with keyword `logs=` — at
runtime the produced mapping has keys `logs` and `interactive_feedback`.
The model uses the runtime keys. -/

structure FeedbackResult where
  logs : String
  interactive_feedback : String
deriving DecidableEq, Repr

/-- State of a `FeedbackUI` session: the fields of the Python object that
the process/log/result logic reads and writes.  The process handle is
modelled as `Option Unit` (present iff `self.process is not None`). -/
structure UIState where
  process : Option Unit
  log_buffer : List String
  feedback_result : Option FeedbackResult
  command_entry : String
deriving DecidableEq, Repr

/-- `FeedbackUI._append_log`: `self.log_buffer.append(text)` (the widget
update is GUI-only). -/
def append_log (s : UIState) (text : String) : UIState :=
  { s with log_buffer := s.log_buffer ++ [text] }

/-- `FeedbackUI._check_process_status`, parameterized by the result of
`self.process.poll()` (`none` = still running).  When a live process has
exited it appends `"\nProcess exited with code {code}\n"` and drops the
handle. -/
def check_process_status (s : UIState) (poll : Option Int) : UIState :=
  match s.process, poll with
  | some _, some code =>
      { append_log s ("\nProcess exited with code " ++ toString code ++ "\n") with
          process := none }
  | _, _ => s

/-- Outcome of the `subprocess.Popen` call in `_run_command` (it depends
on the host system, so it is a parameter of the model). -/
inductive SpawnOutcome where
  | spawned
  | spawnFail (msg : String)
deriving DecidableEq, Repr

/-- `FeedbackUI._run_command`, parameterized by the outcome of
`get_user_environment()` and of `subprocess.Popen`.  Mirrors the source:
if a process is live it kills the tree and returns; otherwise it clears
`log_buffer`, rejects the command iff `not command` (i.e. iff it is the
empty string), appends the echo line, and runs
`Popen(..., env=get_user_environment(), ...)` inside
`try: ... except Exception as e: self._append_log(f"Error running command: {str(e)}\n")`,
so an environment-resolution exception lands in the same handler as a
spawn failure. -/
def run_command (s : UIState) (env : Except String (List (String × String)))
    (spawn : SpawnOutcome) : UIState :=
  match s.process with
  | some _ => { s with process := none }
  | none =>
    let s := { s with log_buffer := [] }
    let command := s.command_entry
    if command = "" then
      append_log s "Please enter a command to run\n"
    else
      let s := append_log s ("$ " ++ command ++ "\n")
      match env with
      | .error msg => append_log s ("Error running command: " ++ msg ++ "\n")
      | .ok _ =>
        match spawn with
        | .spawned => { s with process := some () }
        | .spawnFail msg => append_log s ("Error running command: " ++ msg ++ "\n")

/-- `FeedbackUI._submit_feedback` with `text` the current content of the
feedback text widget: unconditionally sets
`self.feedback_result = FeedbackResult(logs="".join(self.log_buffer),
interactive_feedback=text.strip())` and then closes the window. -/
def submit_feedback (s : UIState) (text : String) : UIState :=
  { s with feedback_result := some ⟨String.join s.log_buffer, pythonStrip text⟩ }

/-- `FeedbackUI.clear_logs`: `self.log_buffer = []` (plus a GUI-only
widget clear). -/
def clear_logs (s : UIState) : UIState :=
  { s with log_buffer := [] }

/-- Tail of `FeedbackUI.run` after the Qt event loop exits: kill the tree
if a process is still live, then return `self.feedback_result`, degrading
to `FeedbackResult(logs="".join(self.log_buffer), interactive_feedback="")`
when none was produced.  The boolean records whether `kill_tree` was
invoked. -/
def run_teardown (s : UIState) : Bool × FeedbackResult :=
  let killed := s.process.isSome
  match s.feedback_result with
  | none => (killed, ⟨String.join s.log_buffer, ""⟩)
  | some r => (killed, r)

/-! ### Process table model and `kill_tree`

`kill_tree(process)` works against the OS process table through psutil:
`psutil.Process(pid)` raises `NoSuchProcess` when the pid is gone;
`children(recursive=True)` enumerates transitive descendants;
`kill`/`terminate` signal one process and raise a `psutil.Error` when it
is gone; `is_running` tests existence.  The table is modelled as the set
of existing pids plus child→parent edges; a delivered signal removes the
pid. -/

structure ProcTable where
  alive : List Nat
  edges : List (Nat × Nat)
deriving DecidableEq, Repr

inductive PsErr where
  | noSuchProcess
deriving DecidableEq, Repr

/-- Direct children of `p` that still exist in the table. -/
def childrenOf (t : ProcTable) (p : Nat) : List Nat :=
  ((t.edges.filter (fun e => e.2 = p)).map (fun e => e.1)).filter (· ∈ t.alive)

/-- Transitive descendants of `p` (`children(recursive=True)`), with fuel
bounding the recursion depth by the number of edges. -/
def descendants (t : ProcTable) : Nat → Nat → List Nat
  | 0, _ => []
  | fuel + 1, p => (childrenOf t p).flatMap (fun c => c :: descendants t fuel c)

/-- `psutil.Process(pid).kill()` / `.terminate()`: delivering either
signal removes the pid from the table; signalling a vanished pid raises. -/
def killSig (t : ProcTable) (p : Nat) : Except PsErr ProcTable :=
  if p ∈ t.alive then .ok { t with alive := t.alive.filter (· ≠ p) }
  else .error .noSuchProcess

/-- `psutil.Process(pid).is_running()`. -/
def isRunning (t : ProcTable) (p : Nat) : Bool :=
  p ∈ t.alive

/-- One iteration of the first loop of `kill_tree`: `try: proc.kill();
killed.append(proc) except psutil.Error: pass`. -/
def killPass (acc : ProcTable × List Nat) (p : Nat) : ProcTable × List Nat :=
  match killSig acc.1 p with
  | .ok t' => (t', acc.2 ++ [p])
  | .error _ => acc

/-- One iteration of the second loop of `kill_tree`: `try: if
proc.is_running(): proc.terminate() except psutil.Error: pass`. -/
def termStep (t : ProcTable) (p : Nat) : ProcTable :=
  if isRunning t p then
    match killSig t p with
    | .ok t' => t'
    | .error _ => t
  else t

/-- `try: parent.kill() except psutil.Error: pass` — kill the parent,
swallowing the failure. -/
def killOrKeep (t : ProcTable) (p : Nat) : ProcTable :=
  match killSig t p with
  | .ok t' => t'
  | .error _ => t

/-- The body of `kill_tree` once the root handle exists: kill every
transitive child collecting the successfully signalled ones, kill the
parent (failure swallowed) and append it to `killed` unconditionally,
then terminate every collected process still running, swallowing
failures. -/
def killTreeBody (t : ProcTable) (rootPid : Nat) : ProcTable :=
  let descs := descendants t t.edges.length rootPid
  let first := descs.foldl killPass (t, [])
  let afterParent := killOrKeep first.1 rootPid
  let killed := first.2 ++ [rootPid]
  killed.foldl termStep afterParent

/-- `kill_tree(process)` from the source: `parent = psutil.Process(process.pid)`
raises `NoSuchProcess` when the pid is gone — that call is outside every
`try` — and otherwise the two signalling passes of `killTreeBody` run with
every per-process failure swallowed. -/
def kill_tree (t : ProcTable) (rootPid : Nat) : Except PsErr ProcTable :=
  if rootPid ∈ t.alive then .ok (killTreeBody t rootPid)
  else .error .noSuchProcess

/-! ### `get_user_environment` (win32 branch)

The win32 branch opens the process token (`RuntimeError` on failure),
creates an environment block (`RuntimeError` on failure), and parses the
block: read NUL-terminated strings until an empty string; for each entry
run `equal_index = current_string.index("=")` — Python `str.index` raises
`ValueError("substring not found")` when `"="` is absent, so the
`if equal_index == -1: continue` guard that follows is dead — then
`result[key] = value` on the pieces before/after the first `=`. -/

/-- Python `dict` assignment `d[k] = v` on an insertion-ordered mapping:
overwrite in place if the key exists, else append. -/
def dictInsert (d : List (String × String)) (k v : String) :
    List (String × String) :=
  if d.any (fun kv => kv.1 = k) then
    d.map (fun kv => if kv.1 = k then (k, v) else kv)
  else d ++ [(k, v)]

/-- Python `current_string.index("=")` returning the index as an `Int`
(so the source's dead `== -1` comparison can be kept verbatim);
raises `ValueError` — modelled as `Except.error` — when absent. -/
def pyStrIndex (s : List Char) (c : Char) : Except String Int :=
  match s.findIdx? (· = c) with
  | some i => .ok (i : Int)
  | none => .error "substring not found"

/-- The `while True` parsing loop of `get_user_environment`, over the
wide-character buffer.  Fuel is the buffer length plus one; every
iteration consumes at least the current string and its NUL. -/
def parseBlockEntries : Nat → List Char → List (String × String) →
    Except String (List (String × String))
  | 0, _, result => .ok result
  | fuel + 1, buf, result =>
    let currentChars := buf.takeWhile (· ≠ '\x00')
    let rest := buf.drop (currentChars.length + 1)
    if currentChars.isEmpty then .ok result
    else
      match pyStrIndex currentChars '=' with
      | .error e => .error e
      | .ok equalIndex =>
        if equalIndex = -1 then
          parseBlockEntries fuel rest result
        else
          let key : String := ⟨currentChars.take equalIndex.toNat⟩
          let value : String := ⟨currentChars.drop (equalIndex.toNat + 1)⟩
          parseBlockEntries fuel rest (dictInsert result key value)

/-- Parse a full environment block buffer. -/
def parseEnvBlock (buf : List Char) : Except String (List (String × String)) :=
  parseBlockEntries (buf.length + 1) buf []

/-- Encode a list of `"KEY=VALUE"` entries as the environment-block buffer
`CreateEnvironmentBlock` returns: each string NUL-terminated, the sequence
ended by one extra NUL. -/
def envBlockOf (entries : List String) : List Char :=
  entries.flatMap (fun e => e.data ++ ['\x00']) ++ ['\x00']

/-- Outcome of the two Windows API calls `get_user_environment` makes
before parsing (they depend on the host, so they parameterize the model). -/
inductive WinEnvOutcome where
  | tokenFail
  | blockFail
  | blockOk (buf : List Char)
deriving DecidableEq, Repr

/-- `get_user_environment()` on the win32 path: raise `RuntimeError` when
the token cannot be opened or the block cannot be created, otherwise
parse the block (an entry without `=` raises `ValueError`, see
`parseBlockEntries`).  No branch returns an empty mapping on failure. -/
def get_user_environment : WinEnvOutcome → Except String (List (String × String))
  | .tokenFail => .error "Failed to open process token"
  | .blockFail => .error "Failed to create environment block"
  | .blockOk buf => parseEnvBlock buf

/-! ### MD5 (`hashlib.md5`, RFC 1321) over byte lists

`get_project_settings_group` hashes the UTF-8 encoding of the project
directory with MD5 and keeps the first 8 hex characters.  Words are `Nat`
reduced mod `2 ^ 32`. -/

namespace MD5

def mask32 : Nat := 4294967296

/-- Per-round left-rotation amounts. -/
def shifts : List Nat :=
  [7, 12, 17, 22, 7, 12, 17, 22, 7, 12, 17, 22, 7, 12, 17, 22,
   5, 9, 14, 20, 5, 9, 14, 20, 5, 9, 14, 20, 5, 9, 14, 20,
   4, 11, 16, 23, 4, 11, 16, 23, 4, 11, 16, 23, 4, 11, 16, 23,
   6, 10, 15, 21, 6, 10, 15, 21, 6, 10, 15, 21, 6, 10, 15, 21]

/-- Sine-derived constants `K[i] = floor(abs(sin(i+1)) * 2^32)`. -/
def consts : List Nat :=
  [3614090360, 3905402710, 606105819, 3250441966, 4118548399, 1200080426,
   2821735955, 4249261313, 1770035416, 2336552879, 4294925233, 2304563134,
   1804603682, 4254626195, 2792965006, 1236535329, 4129170786, 3225465664,
   643717713, 3921069994, 3593408605, 38016083, 3634488961, 3889429448,
   568446438, 3275163606, 4107603335, 1163531501, 2850285829, 4243563512,
   1735328473, 2368359562, 4294588738, 2272392833, 1839030562, 4259657740,
   2763975236, 1272893353, 4139469664, 3200236656, 681279174, 3936430074,
   3572445317, 76029189, 3654602809, 3873151461, 530742520, 3299628645,
   4096336452, 1126891415, 2878612391, 4237533241, 1700485571, 2399980690,
   4293915773, 2240044497, 1873313359, 4264355552, 2734768916, 1309151649,
   4149444226, 3174756917, 718787259, 3951481745]

/-- Rotate a 32-bit word left by `n`. -/
def rotl (x n : Nat) : Nat :=
  (((x <<< n) % mask32) ||| (x >>> (32 - n)))

/-- `count` little-endian bytes of `n`. -/
def leBytes (n count : Nat) : List Nat :=
  (List.range count).map (fun i => (n >>> (8 * i)) % 256)

/-- MD5 padding: append `0x80`, zero-pad to 56 mod 64, append the 64-bit
little-endian bit length. -/
def padMessage (msg : List Nat) : List Nat :=
  let z := (120 - (msg.length + 1) % 64) % 64
  msg ++ [128] ++ List.replicate z 0 ++ leBytes (msg.length * 8) 8

/-- Split into 64-byte chunks, with fuel bounding the number of chunks
(each step consumes at least one byte, so the list length is enough). -/
def chunksOf64Go : Nat → List Nat → List (List Nat)
  | 0, _ => []
  | _, [] => []
  | fuel + 1, x :: xs => ((x :: xs).take 64) :: chunksOf64Go fuel ((x :: xs).drop 64)

/-- Split into 64-byte chunks. -/
def chunksOf64 (l : List Nat) : List (List Nat) :=
  chunksOf64Go l.length l

/-- The sixteen little-endian 32-bit words of one chunk. -/
def chunkWords (c : List Nat) : List Nat :=
  (List.range 16).map (fun j =>
    c.getD (4 * j) 0 + (c.getD (4 * j + 1) 0) * 256 +
    (c.getD (4 * j + 2) 0) * 65536 + (c.getD (4 * j + 3) 0) * 16777216)

/-- One of the 64 MD5 operations. -/
def md5Round (m : List Nat) (st : Nat × Nat × Nat × Nat) (i : Nat) :
    Nat × Nat × Nat × Nat :=
  let (a, b, c, d) := st
  let fg : Nat × Nat :=
    if i < 16 then ((b &&& c) ||| ((b ^^^ 4294967295) &&& d), i)
    else if i < 32 then ((d &&& b) ||| ((d ^^^ 4294967295) &&& c), (5 * i + 1) % 16)
    else if i < 48 then (b ^^^ c ^^^ d, (3 * i + 5) % 16)
    else (c ^^^ (b ||| (d ^^^ 4294967295)), (7 * i) % 16)
  let f := (fg.1 + a + consts.getD i 0 + m.getD fg.2 0) % mask32
  (d, (b + rotl f (shifts.getD i 0)) % mask32, b, c)

/-- Process one 64-byte chunk. -/
def processChunk (st : Nat × Nat × Nat × Nat) (c : List Nat) :
    Nat × Nat × Nat × Nat :=
  let r := (List.range 64).foldl (md5Round (chunkWords c)) st
  ((st.1 + r.1) % mask32, (st.2.1 + r.2.1) % mask32,
   (st.2.2.1 + r.2.2.1) % mask32, (st.2.2.2 + r.2.2.2) % mask32)

/-- The sixteen digest bytes of a byte message. -/
def digestBytes (msg : List Nat) : List Nat :=
  let st := (chunksOf64 (padMessage msg)).foldl processChunk
    (1732584193, 4023233417, 2562383102, 271733878)
  leBytes st.1 4 ++ leBytes st.2.1 4 ++ leBytes st.2.2.1 4 ++ leBytes st.2.2.2 4

def hexDigitChar (n : Nat) : Char :=
  if n < 10 then Char.ofNat (48 + n) else Char.ofNat (87 + n)

def byteHex (b : Nat) : String :=
  ⟨[hexDigitChar (b / 16), hexDigitChar (b % 16)]⟩

/-- `hashlib.md5(bytes).hexdigest()`. -/
def hexdigest (msg : List Nat) : String :=
  String.join ((digestBytes msg).map byteHex)

end MD5

/-- Python `str.encode('utf-8')` for one character. -/
def utf8EncodeChar (c : Char) : List Nat :=
  let n := c.toNat
  if n < 128 then [n]
  else if n < 2048 then [192 ||| (n >>> 6), 128 ||| (n &&& 63)]
  else if n < 65536 then
    [224 ||| (n >>> 12), 128 ||| ((n >>> 6) &&& 63), 128 ||| (n &&& 63)]
  else
    [240 ||| (n >>> 18), 128 ||| ((n >>> 12) &&& 63),
     128 ||| ((n >>> 6) &&& 63), 128 ||| (n &&& 63)]

/-- Python `str.encode('utf-8')`. -/
def strUtf8 (s : String) : List Nat :=
  s.data.flatMap utf8EncodeChar

/-! ### posix `os.path.normpath` / `os.path.basename`

Implemented on character lists (the core `String` slicing primitives use
byte positions that do not reduce inside the kernel). -/

/-- Python `s.split('/')`. -/
def splitOnSlashGo : List Char → List Char → List (List Char)
  | [], acc => [acc.reverse]
  | c :: rest, acc =>
    if c = '/' then acc.reverse :: splitOnSlashGo rest []
    else splitOnSlashGo rest (c :: acc)

/-- Python `s.split('/')`. -/
def splitOnSlash (l : List Char) : List (List Char) :=
  splitOnSlashGo l []

/-- The `initial_slashes` computation of CPython `posixpath.normpath`:
1 for a leading `/`, 2 for exactly two leading slashes, 1 again for three
or more. -/
def initialSlashesOf : List Char → Nat
  | '/' :: '/' :: '/' :: _ => 1
  | '/' :: '/' :: _ => 2
  | '/' :: _ => 1
  | _ => 0

/-- Python `'/'.join(components)`. -/
def joinSlash : List String → List Char
  | [] => []
  | [s] => s.data
  | s :: rest => s.data ++ '/' :: joinSlash rest

/-- The loop body of CPython `posixpath.normpath` over the components. -/
def normpathStep (initialSlashes : Nat) (acc : List String) (comp : String) :
    List String :=
  if comp = "" || comp = "." then acc
  else if comp ≠ ".." || (initialSlashes = 0 && acc.isEmpty) ||
      (!acc.isEmpty && acc.getLast? = some "..") then acc ++ [comp]
  else if !acc.isEmpty then acc.dropLast
  else acc

/-- CPython `posixpath.normpath`. -/
def posixNormpath (path : String) : String :=
  if path = "" then "."
  else
    let initialSlashes := initialSlashesOf path.data
    let comps : List String := (splitOnSlash path.data).map (fun c => ⟨c⟩)
    let newComps := comps.foldl (normpathStep initialSlashes) []
    let joined : String :=
      ⟨List.replicate initialSlashes '/' ++ joinSlash newComps⟩
    if joined = "" then "." else joined

/-- CPython `posixpath.basename`: everything after the final `/`. -/
def posixBasename (p : String) : String :=
  ⟨((splitOnSlash p.data).getLast?).getD []⟩

/-- Python slicing `s[:n]` on a string. -/
def pyTake (s : String) (n : Nat) : String :=
  ⟨s.data.take n⟩

/-- `get_project_settings_group(project_dir)`:
`basename(normpath(project_dir)) + "_" + md5(project_dir.encode('utf-8')).hexdigest()[:8]`. -/
def get_project_settings_group (project_dir : String) : String :=
  let basename := posixBasename (posixNormpath project_dir)
  let full_hash := pyTake (MD5.hexdigest (strUtf8 project_dir)) 8
  basename ++ "_" ++ full_hash

/-! ### `feedback_ui` entry point and `__main__` -/

/-- Python truthiness of the `output_file: Optional[str]` argument. -/
def pyTruthyOptStr : Option String → Bool
  | none => false
  | some s => s ≠ ""

/-- Python truthiness of a produced `FeedbackResult` dict: it always has
the two keys `logs` and `interactive_feedback`, so it is always truthy. -/
def feedbackResultTruthy (_ : FeedbackResult) : Bool := true

/-- `feedback_ui(project_directory, prompt, output_file)` after
`result = ui.run()`: `if output_file and result:` dump the result JSON to
the file and return `None`, else return the result.  The first component
is the returned value, the second records the file write (path, payload). -/
def feedback_ui (result : FeedbackResult) (output_file : Option String) :
    Option FeedbackResult × Option (String × FeedbackResult) :=
  if pyTruthyOptStr output_file && feedbackResultTruthy result then
    (none, some (output_file.getD "", result))
  else
    (some result, none)

/-- `__main__`: `if result:` print the logs/feedback summary. -/
def mainPrintsSummary : Option FeedbackResult → Bool
  | none => false
  | some r => feedbackResultTruthy r

/-- Extract the payload of an `Except`, with a default for the error case. -/
def exceptGetD {ε α : Type} (e : Except ε α) (d : α) : α :=
  match e with
  | .ok a => a
  | .error _ => d

/-! ### Lemmas about `kill_tree` -/

theorem mem_killPass_alive {acc : ProcTable × List Nat} {p x : Nat}
    (h : x ∈ (killPass acc p).1.alive) : x ∈ acc.1.alive := by
  unfold killPass killSig at h
  by_cases hp : p ∈ acc.1.alive
  · simp only [if_pos hp] at h
    exact (List.mem_filter.mp h).1
  · simpa only [if_neg hp] using h

theorem killPass_not_mem_self (acc : ProcTable × List Nat) (p : Nat) :
    p ∉ (killPass acc p).1.alive := by
  unfold killPass killSig
  by_cases hp : p ∈ acc.1.alive
  · simp [if_pos hp, List.mem_filter]
  · simpa only [if_neg hp] using hp

theorem foldl_killPass_pres {l : List Nat} {acc : ProcTable × List Nat} {x : Nat}
    (h : x ∉ acc.1.alive) : x ∉ (l.foldl killPass acc).1.alive := by
  induction l generalizing acc with
  | nil => exact h
  | cons a l ih =>
    exact ih (fun hx => h (mem_killPass_alive hx))

theorem foldl_killPass_elem {l : List Nat} {acc : ProcTable × List Nat} {d : Nat}
    (h : d ∈ l) : d ∉ (l.foldl killPass acc).1.alive := by
  induction l generalizing acc with
  | nil => cases h
  | cons a l ih =>
    rcases List.mem_cons.mp h with h | h
    · subst h
      simp only [List.foldl_cons]
      exact foldl_killPass_pres (killPass_not_mem_self acc d)
    · exact ih h

theorem mem_termStep_alive {t : ProcTable} {p x : Nat}
    (h : x ∈ (termStep t p).alive) : x ∈ t.alive := by
  unfold termStep killSig at h
  by_cases hr : isRunning t p
  · by_cases hp : p ∈ t.alive
    · simp only [if_pos hr, if_pos hp] at h
      exact (List.mem_filter.mp h).1
    · simpa only [if_pos hr, if_neg hp] using h
  · simpa only [if_neg hr] using h

theorem foldl_termStep_pres {l : List Nat} {t : ProcTable} {x : Nat}
    (h : x ∉ t.alive) : x ∉ (l.foldl termStep t).alive := by
  induction l generalizing t with
  | nil => exact h
  | cons a l ih =>
    exact ih (fun hx => h (mem_termStep_alive hx))

theorem killOrKeep_not_mem (t : ProcTable) (p : Nat) :
    p ∉ (killOrKeep t p).alive := by
  unfold killOrKeep killSig
  by_cases hp : p ∈ t.alive
  · simp [if_pos hp, List.mem_filter]
  · simpa only [if_neg hp] using hp

theorem mem_killOrKeep_alive {t : ProcTable} {p x : Nat}
    (h : x ∈ (killOrKeep t p).alive) : x ∈ t.alive := by
  unfold killOrKeep killSig at h
  by_cases hp : p ∈ t.alive
  · simp only [if_pos hp] at h
    exact (List.mem_filter.mp h).1
  · simpa only [if_neg hp] using h

theorem killTreeBody_root_dead (t : ProcTable) (root : Nat) :
    root ∉ (killTreeBody t root).alive := by
  unfold killTreeBody
  exact foldl_termStep_pres (killOrKeep_not_mem _ root)

theorem killTreeBody_desc_dead {t : ProcTable} {root d : Nat}
    (hd : d ∈ descendants t t.edges.length root) :
    d ∉ (killTreeBody t root).alive := by
  unfold killTreeBody
  exact foldl_termStep_pres
    (fun hx => foldl_killPass_elem hd (mem_killOrKeep_alive hx))

/-! ### Claim C1 -/

/-- Session state at window open with `"echo hello"` in the command
entry. -/
def c1_start : UIState :=
  { process := none, log_buffer := [], feedback_result := none,
    command_entry := "echo hello" }

/-- `start("echo hello")`, the drain worker delivering `"hello\n"`, the
poll detecting exit code 0, then `submit(" great work ")`. -/
def c1_final : UIState :=
  submit_feedback
    (check_process_status
      (append_log (run_command c1_start (.ok []) .spawned) "hello\n")
      (some 0))
    " great work "

/-- C1 counterexample: after the `echo hello` run and
`submit(" great work ")`, the produced result is NOT the claimed
`{logs: "$ echo hello\nhello\nProcess exited with code 0\n",
interactive_feedback: "great work"}` — the exit-report line the code
appends is `"\nProcess exited with code 0\n"`, so the joined logs carry an
extra blank line. -/
theorem C1_counterexample :
    c1_final.feedback_result ≠
      some { logs := "$ echo hello\nhello\nProcess exited with code 0\n",
             interactive_feedback := "great work" } := by
  decide

/-- C1 (amended): for a session where `start("echo hello")` runs to normal
exit and then `submit(" great work ")` is called, the produced result is
`{logs: "$ echo hello\nhello\n\nProcess exited with code 0\n",
interactive_feedback: "great work"}`: logs is the concatenation of every
line appended during the run, where the exit-report line is itself
prefixed with a newline (one blank line before `Process exited...`), and
interactive_feedback is the submitted text with surrounding whitespace
trimmed. -/
theorem C1_run_exit_submit_result :
    c1_final.feedback_result =
      some { logs := "$ echo hello\nhello\n\nProcess exited with code 0\n",
             interactive_feedback := "great work" } := by
  decide

/-! ### Claim C2 -/

/-- C2: an environment-block entry with no `=` makes
`current_string.index("=")` raise `ValueError` and the whole resolution
fail — the `== -1` skip branch is dead (`str.index` never returns `-1`) —
while a block of well-formed entries is split on the first `=` into
key/value. -/
theorem C2_missing_equals_raises :
    get_user_environment (.blockOk (envBlockOf ["A=1", "NOEQUALS", "B=2"])) =
      .error "substring not found" ∧
    get_user_environment (.blockOk (envBlockOf ["A=1", "B=C=2"])) =
      .ok [("A", "1"), ("B", "C=2")] := by
  constructor
  · rfl
  · rfl

/-! ### Claim C3 -/

/-- Idle session state with command `"echo hi"`. -/
def c3_idle : UIState :=
  { process := none, log_buffer := [], feedback_result := none,
    command_entry := "echo hi" }

/-- C3 counterexample: when `get_user_environment()` raises (token open
failure), `_run_command` does NOT propagate the failure — the generic
`except Exception` handler appends the inline log line
`"Error running command: Failed to open process token\n"` and the start
attempt ends in the ordinary no-process state. -/
theorem C3_counterexample :
    (run_command c3_idle (get_user_environment .tokenFail) .spawned).log_buffer =
      ["$ echo hi\n", "Error running command: Failed to open process token\n"] ∧
    (run_command c3_idle (get_user_environment .tokenFail) .spawned).process =
      none := by
  decide

/-- C3 (amended): if environment resolution fails (token open or block
construction), `get_user_environment` raises and never returns a mapping
(in particular not an empty one), and that exception aborts the start
attempt with no process created — but it is caught by `start`'s catch-all
spawn handler and reported as an inline
`"Error running command: ..."` log line, not propagated to the caller. -/
theorem C3_env_failure_logged_inline (s : UIState)
    (o : WinEnvOutcome) (sp : SpawnOutcome) (msg : String)
    (hp : s.process = none) (hc : s.command_entry ≠ "")
    (ho : get_user_environment o = .error msg) :
    (run_command s (get_user_environment o) sp).process = none ∧
    (run_command s (get_user_environment o) sp).log_buffer =
      ["$ " ++ s.command_entry ++ "\n",
       "Error running command: " ++ msg ++ "\n"] ∧
    get_user_environment o ≠ .ok [] := by
  obtain ⟨p, lb, fr, cmd⟩ := s
  simp only at hp hc
  subst hp
  rw [ho]
  refine ⟨?_, ?_, ?_⟩
  · simp [run_command, append_log, if_neg hc]
  · simp [run_command, append_log, if_neg hc]
  · simp [ho]

/-- C3 witness: the amended statement at the idle `"echo hi"` session
with a token-open failure. -/
theorem C3_witness :
    (run_command c3_idle (get_user_environment .tokenFail) .spawned).process =
      none ∧
    (run_command c3_idle (get_user_environment .tokenFail) .spawned).log_buffer =
      ["$ " ++ c3_idle.command_entry ++ "\n",
       "Error running command: " ++ "Failed to open process token" ++ "\n"] ∧
    get_user_environment .tokenFail ≠ .ok [] :=
  C3_env_failure_logged_inline c3_idle .tokenFail .spawned
    "Failed to open process token" rfl (by decide) rfl

/-! ### Claim C4 -/

def exceptIsOk {ε α : Type} : Except ε α → Bool
  | .ok _ => true
  | .error _ => false

theorem kill_tree_ok (t : ProcTable) (root : Nat) (h : root ∈ t.alive) :
    kill_tree t root = .ok (killTreeBody t root) := by
  unfold kill_tree
  rw [if_pos h]

/-- C4 counterexample: calling `kill_tree` with a root pid that is no
longer in the process table raises `psutil.NoSuchProcess` out of
`psutil.Process(process.pid)` — that constructor call is outside every
`try`, so an already-dead root does NOT succeed without error. -/
theorem C4_counterexample :
    kill_tree { alive := [], edges := [] } 42 = .error .noSuchProcess := rfl

/-- C4 (amended): while the root process still exists in the table,
`kill_tree` sends the immediate kill signal to every transitively
enumerated descendant and then to the root, then terminate to every
collected id still running, swallowing every per-process signalling
failure — the whole operation succeeds and leaves the root and every
enumerated descendant dead.  But idempotence on an already-dead tree
fails at the root: `psutil.Process(pid)` for a vanished root raises
`NoSuchProcess` before any `try` block (see `C4_counterexample`). -/
theorem C4_kill_tree_succeeds (t : ProcTable) (root : Nat)
    (h : root ∈ t.alive) :
    exceptIsOk (kill_tree t root) = true ∧
    isRunning (exceptGetD (kill_tree t root) t) root = false ∧
    ((descendants t t.edges.length root).all
      (fun d => !(isRunning (exceptGetD (kill_tree t root) t) d))) = true := by
  rw [kill_tree_ok t root h]
  refine ⟨rfl, ?_, ?_⟩
  · simp only [exceptGetD, isRunning, decide_eq_false_iff_not]
    exact killTreeBody_root_dead t root
  · simp only [exceptGetD, List.all_eq_true]
    intro d hd
    simp only [Bool.not_eq_true', isRunning, decide_eq_false_iff_not]
    exact killTreeBody_desc_dead hd

/-- A three-process chain 1 → 2 → 3. -/
def c4_table : ProcTable := { alive := [1, 2, 3], edges := [(2, 1), (3, 2)] }

/-- C4 witness: killing the live chain rooted at pid 1 succeeds and
leaves every process of the tree dead. -/
theorem C4_witness :
    exceptIsOk (kill_tree c4_table 1) = true ∧
    isRunning (exceptGetD (kill_tree c4_table 1) c4_table) 1 = false ∧
    ((descendants c4_table c4_table.edges.length 1).all
      (fun d => !(isRunning (exceptGetD (kill_tree c4_table 1) c4_table) d)))
      = true :=
  C4_kill_tree_succeeds c4_table 1 (by decide)

/-! ### Claim C5 -/

/-- A session that has finished an `echo hello` run, before any submit. -/
def c5_session : UIState :=
  { process := none, log_buffer := ["$ echo hello\n", "hello\n"],
    feedback_result := none, command_entry := "echo hello" }

/-- C5 counterexample: `_submit_feedback` has no at-most-once guard — a
second call replaces the already-generated result with a different one
(here the submitted text changes from `"first"` to `"second"`). -/
theorem C5_counterexample :
    (submit_feedback (submit_feedback c5_session "first") "second").feedback_result =
      some { logs := "$ echo hello\nhello\n", interactive_feedback := "second" } ∧
    (submit_feedback c5_session "first").feedback_result =
      some { logs := "$ echo hello\nhello\n", interactive_feedback := "first" } ∧
    (submit_feedback (submit_feedback c5_session "first") "second").feedback_result ≠
      (submit_feedback c5_session "first").feedback_result := by
  decide

/-- C5 (amended): `submit` unconditionally overwrites `feedback_result`
with a result built from the current buffer and the current text — in
particular a second call is neither rejected nor a no-op: it replaces the
already-generated result.  (The only guard is behavioural: the first
submit closes the window.) -/
theorem C5_submit_overwrites :
    ∀ (s : UIState) (text : String),
      (submit_feedback s text).feedback_result =
        some { logs := String.join s.log_buffer,
               interactive_feedback := pythonStrip text } :=
  fun _ _ => rfl

/-! ### Claim C6 -/

/-- Idle session whose command entry holds the blank command `" "`. -/
def c6_blank : UIState :=
  { process := none, log_buffer := [], feedback_result := none,
    command_entry := " " }

/-- C6 counterexample: a whitespace-only command is NOT refused —
`if not command` is false for `" "`, so the session echoes `"$  \n"` and
spawns a process; the `"Please enter a command to run"` line is not
appended. -/
theorem C6_counterexample :
    (run_command c6_blank (.ok []) .spawned).process = some () ∧
    "Please enter a command to run\n" ∉
      (run_command c6_blank (.ok []) .spawned).log_buffer := by
  decide

/-- C6 (amended): only the EMPTY command string is refused: `start("")`
creates no process, raises no error, and appends the user-visible log
line `"Please enter a command to run"`; whitespace-only commands pass the
`if not command` test and are handed to the shell. -/
theorem C6_empty_command_rejected (s : UIState)
    (env : Except String (List (String × String))) (sp : SpawnOutcome)
    (hp : s.process = none) (hc : s.command_entry = "") :
    (run_command s env sp).process = none ∧
    (run_command s env sp).log_buffer = ["Please enter a command to run\n"] := by
  obtain ⟨p, lb, fr, cmd⟩ := s
  simp only at hp hc
  subst hp
  subst hc
  exact ⟨rfl, rfl⟩

/-- C6 witness: `start("")` on an idle session with stale logs. -/
theorem C6_witness :
    (run_command
        { process := none, log_buffer := ["old\n"], feedback_result := none,
          command_entry := "" } (.ok []) .spawned).process = none ∧
    (run_command
        { process := none, log_buffer := ["old\n"], feedback_result := none,
          command_entry := "" } (.ok []) .spawned).log_buffer =
      ["Please enter a command to run\n"] :=
  C6_empty_command_rejected
    { process := none, log_buffer := ["old\n"], feedback_result := none,
      command_entry := "" } (.ok []) .spawned rfl rfl

/-! ### Claim C7 -/

/-- C7: if the session ends without a submit, `run` still returns a
well-formed FeedbackResult — empty `interactive_feedback`, `logs` the
join of whatever lines were collected — and the teardown force-kills the
process exactly when one is still live (`run_teardown` always returns a
result; it cannot return nothing). -/
theorem C7_teardown_degrades (s : UIState) (h : s.feedback_result = none) :
    (run_teardown s).2 =
      { logs := String.join s.log_buffer, interactive_feedback := "" } ∧
    (run_teardown s).1 = s.process.isSome := by
  obtain ⟨p, lb, fr, cmd⟩ := s
  simp only at h
  subst h
  exact ⟨rfl, rfl⟩

/-- A session closed mid-run, no submit. -/
def c7_closed : UIState :=
  { process := some (), log_buffer := ["$ sleep 5\n"], feedback_result := none,
    command_entry := "sleep 5" }

/-- C7 witness: teardown of a still-running session yields
`{logs: "$ sleep 5\n", interactive_feedback: ""}` and kills the process. -/
theorem C7_witness :
    (run_teardown c7_closed).2 =
      { logs := String.join c7_closed.log_buffer, interactive_feedback := "" } ∧
    (run_teardown c7_closed).1 = c7_closed.process.isSome :=
  C7_teardown_degrades c7_closed rfl

/-! ### Claim C8 -/

set_option maxRecDepth 16384 in
/-- C8: the settings group key is
`basename(normpath(path)) + "_" + md5(path)[:8]`; computing it twice for
the same full path yields identical strings (it is a pure function of the
path, witnessed on `"/a/b/proj"`), and the two different full paths
`"/a/b/proj"` and `"/c/d/proj"` sharing the basename `proj` yield the
different keys `"proj_deb7d405"` and `"proj_3a5d918e"`. -/
theorem C8_settings_group_key :
    (∀ p : String, get_project_settings_group p =
      posixBasename (posixNormpath p) ++ "_" ++
        pyTake (MD5.hexdigest (strUtf8 p)) 8) ∧
    get_project_settings_group "/a/b/proj" = "proj_deb7d405" ∧
    get_project_settings_group "/c/d/proj" = "proj_3a5d918e" ∧
    get_project_settings_group "/a/b/proj" = get_project_settings_group "/a/b/proj" ∧
    get_project_settings_group "/a/b/proj" ≠ get_project_settings_group "/c/d/proj" := by
  have h1 : get_project_settings_group "/a/b/proj" = "proj_deb7d405" := by decide
  have h2 : get_project_settings_group "/c/d/proj" = "proj_3a5d918e" := by decide
  refine ⟨fun p => rfl, h1, h2, rfl, ?_⟩
  rw [h1, h2]
  decide

/-! ### Claim C9 -/

/-- A session whose most recent run left two lines in the buffer. -/
def c9_session : UIState :=
  { process := none, log_buffer := ["$ echo hi\n", "hi\n"],
    feedback_result := none, command_entry := "echo hi" }

/-- C9 counterexample: the user-facing `clear_logs` operation (the Clear
Console button) empties a non-empty LogBuffer outside of any `start()`
call, so the start-of-run clear is not the only operation that empties
the buffer. -/
theorem C9_counterexample :
    (clear_logs c9_session).log_buffer = [] ∧ c9_session.log_buffer ≠ [] := by
  decide

/-- C9 (amended): each `start()` call on an idle session clears the
LogBuffer exactly once, before the first line of that run is appended
(the post-start buffer does not depend on the previous buffer content),
and the other session operations — log delivery, poll, submit — only
append or leave the buffer unchanged; but `clear_logs` is an additional
operation that empties the buffer at any time. -/
theorem C9_buffer_discipline (s : UIState)
    (env : Except String (List (String × String))) (sp : SpawnOutcome)
    (text : String) (poll : Option Int)
    (hp : s.process = none) :
    (run_command s env sp).log_buffer =
      (run_command { s with log_buffer := [] } env sp).log_buffer ∧
    (append_log s text).log_buffer = s.log_buffer ++ [text] ∧
    (check_process_status s poll).log_buffer.take s.log_buffer.length =
      s.log_buffer ∧
    (submit_feedback s text).log_buffer = s.log_buffer ∧
    (clear_logs s).log_buffer = [] := by
  obtain ⟨p, lb, fr, cmd⟩ := s
  simp only at hp
  subst hp
  refine ⟨rfl, rfl, ?_, rfl, rfl⟩
  simp [check_process_status, List.take_left]

/-- C9 witness: the amended statement at the finished `echo hi` session,
with a further log line, a poll and a submit text. -/
theorem C9_witness :
    (run_command c9_session (.ok []) .spawned).log_buffer =
      (run_command { c9_session with log_buffer := [] } (.ok []) .spawned).log_buffer ∧
    (append_log c9_session "more\n").log_buffer =
      c9_session.log_buffer ++ ["more\n"] ∧
    (check_process_status c9_session (some 0)).log_buffer.take
      c9_session.log_buffer.length = c9_session.log_buffer ∧
    (submit_feedback c9_session "more\n").log_buffer = c9_session.log_buffer ∧
    (clear_logs c9_session).log_buffer = [] :=
  C9_buffer_discipline c9_session (.ok []) .spawned "more\n" (some 0) rfl

/-! ### Claim C10 -/

/-- C10: with an output file supplied the entry point writes the result
JSON to it and returns `None` (so `__main__` prints nothing); with no
output file it writes nothing and returns the result to the in-process
caller (and `__main__` prints the logs/feedback summary). -/
theorem C10_output_file_routing (r : FeedbackResult) (p : String)
    (hp : p ≠ "") :
    feedback_ui r (some p) = (none, some (p, r)) ∧
    feedback_ui r none = (some r, none) ∧
    mainPrintsSummary (feedback_ui r (some p)).1 = false ∧
    mainPrintsSummary (feedback_ui r none).1 = true := by
  simp [feedback_ui, pyTruthyOptStr, feedbackResultTruthy, mainPrintsSummary, hp]

/-- C10 witness: routing at a concrete result and the output path
`"/tmp/out.json"`. -/
theorem C10_witness :
    feedback_ui { logs := "$ echo hello\nhello\n", interactive_feedback := "ok" }
      (some "/tmp/out.json") =
      (none, some ("/tmp/out.json",
        { logs := "$ echo hello\nhello\n", interactive_feedback := "ok" })) ∧
    feedback_ui { logs := "$ echo hello\nhello\n", interactive_feedback := "ok" }
      none =
      (some { logs := "$ echo hello\nhello\n", interactive_feedback := "ok" },
        none) ∧
    mainPrintsSummary (feedback_ui
      { logs := "$ echo hello\nhello\n", interactive_feedback := "ok" }
      (some "/tmp/out.json")).1 = false ∧
    mainPrintsSummary (feedback_ui
      { logs := "$ echo hello\nhello\n", interactive_feedback := "ok" }
      none).1 = true :=
  C10_output_file_routing
    { logs := "$ echo hello\nhello\n", interactive_feedback := "ok" }
    "/tmp/out.json" (by decide)

end InteractiveFeedback
